import Mathlib

/-!
Shallow embedding of the `react-useauth` repository: the `AuthContext`
provider (in-memory session state plus `localStorage` persistence under the
fixed key `"user"`), the `useAuth` consumer hook, the `ProtectedRoute`
access gate, and the `App` route table.  Strings are modelled as `List Char`
(the JS string contents), storage as a partial map from keys to stored
strings, and JS exceptions as an explicit `Except` error channel.
-/

namespace ReactUseAuth

/-- The user record the application constructs and stores:
`{ id: 1, name: username }` in `LoginPage.handleLogin`.  `id` is a JS
number (always a natural in this program), `name` the JS string contents. -/
structure User where
  id : Nat
  name : List Char
deriving DecidableEq, Repr

/-- The double-quote character used by the JSON serialization. -/
def qchar : Char := '"'

/-- The backslash character used for JSON string escapes. -/
def bslash : Char := '\\'

/-- Opening curly brace character of a JSON object. -/
def lcurly : Char := Char.ofNat 123

/-- Closing curly brace character of a JSON object. -/
def rcurly : Char := Char.ofNat 125

/-- Decimal digit character for a value below ten. -/
def digitChar (n : Nat) : Char := Char.ofNat (48 + n)

/-- Decimal representation of a natural number, most significant digit
first, as produced by JS number-to-string conversion inside
`JSON.stringify`. -/
def natChars (n : Nat) : List Char :=
  if _h : n < 10 then [ digitChar n ]
  else natChars (n / 10) ++ [ digitChar (n % 10) ]
termination_by n
decreasing_by
  exact Nat.div_lt_self (by omega) (by omega)

/-- Split a character list into its maximal leading run of decimal digits
and the remainder (the number-literal scanner of the JSON reader). -/
def takeDigits : List Char → List Char × List Char
  | [] => ([], [])
  | c :: cs =>
    if c.isDigit then (c :: (takeDigits cs).1, (takeDigits cs).2)
    else ([], c :: cs)

/-- Numeric value of a list of decimal digit characters. -/
def digitsVal (ds : List Char) : Nat :=
  ds.foldl (fun a c => a * 10 + (c.toNat - 48)) 0

/-- JSON string escaping as `JSON.stringify` applies it to the characters
the app can store: a quote or backslash is preceded by a backslash, every
other character is emitted as itself. -/
def escapeChars : List Char → List Char
  | [] => []
  | c :: cs =>
    if c = qchar ∨ c = bslash then bslash :: c :: escapeChars cs
    else c :: escapeChars cs

/-- JSON string-body reader: consumes characters up to the terminating
unescaped quote, undoing the escapes `escapeChars` produces, and returns
the decoded contents together with the unconsumed remainder.  Inputs that
are not a well-formed string body (unterminated, or a stray backslash
escape) are rejected with `none`. -/
def unescapeChars : List Char → Option (List Char × List Char)
  | [] => none
  | c :: cs =>
    if c = qchar then some ([], cs)
    else if c = bslash then
      match cs with
      | [] => none
      | d :: ds =>
        if d = qchar ∨ d = bslash then
          match unescapeChars ds with
          | some (s, r) => some (d :: s, r)
          | none => none
        else none
    else
      match unescapeChars cs with
      | some (s, r) => some (c :: s, r)
      | none => none

/-- Consume an expected literal prefix, returning the remainder, or `none`
when the input does not start with that literal. -/
def dropLit : List Char → List Char → Option (List Char)
  | [], s => some s
  | _ :: _, [] => none
  | p :: ps, c :: cs => if c = p then dropLit ps cs else none

/-- The literal `{"id":` opening the serialized user object. -/
def idKeyLit : List Char := [ lcurly, qchar, 'i', 'd', qchar, ':' ]

/-- The literal `,"name":"` between the two fields of the serialized user
object. -/
def nameKeyLit : List Char := [ ',', qchar, 'n', 'a', 'm', 'e', qchar, ':', qchar ]

/-- `JSON.stringify(userData)` for the user records this app writes:
`{"id":<digits>,"name":"<escaped name>"}`. -/
def stringifyUser (u : User) : List Char :=
  idKeyLit ++ (natChars u.id ++ (nameKeyLit ++ (escapeChars u.name ++ (qchar :: [ rcurly ]))))

/-- `JSON.parse` restricted to the serialization format the application
writes (`stringifyUser`); any input outside that format is a parse failure
(`none`), matching the `SyntaxError` that `JSON.parse` raises on the
non-JSON inputs considered in the theorems below. -/
def parseUser (s : List Char) : Option User :=
  match dropLit idKeyLit s with
  | none => none
  | some s1 =>
    match takeDigits s1 with
    | (ds, s2) =>
      if ds = [] then none
      else
        match dropLit nameKeyLit s2 with
        | none => none
        | some s3 =>
          match unescapeChars s3 with
          | none => none
          | some (nm, s4) =>
            if s4 = [ rcurly ] then some { id := digitsVal ds, name := nm } else none

/-- The durable key-value medium behind `localStorage`: each key holds at
most one stored string. -/
abbrev Storage := String → Option (List Char)

/-- `localStorage.setItem k v`. -/
def setItem (k : String) (v : List Char) (σ : Storage) : Storage :=
  fun kk => if kk == k then some v else σ kk

/-- `localStorage.removeItem k`. -/
def removeItem (k : String) (σ : Storage) : Storage :=
  fun kk => if kk == k then none else σ kk

/-- A storage medium holding nothing at all. -/
def emptyStorage : Storage := fun _ => none

/-- JS exceptions that the modelled code can raise: `TypeError` from
destructuring a `null` context value, and the `SyntaxError` that
`JSON.parse` raises on unparsable input. -/
inductive JsError
  | typeError
  | parseError
deriving DecidableEq, Repr

/-- The in-memory session state owned by `AuthProvider`:
`const [user, setUser] = useState(null)` and
`const [loading, setLoading] = useState(true)`. -/
structure AuthState where
  user : Option User
  loading : Bool
deriving DecidableEq, Repr

/-- The provider's state right after mount, before the hydration effect
runs: `user = null`, `loading = true`. -/
def initialAuthState : AuthState := { user := none, loading := true }

/-- The one-shot hydration effect of `AuthProvider`:
`const storedUser = localStorage.getItem('user'); if (storedUser)
{ setUser(JSON.parse(storedUser)); } setLoading(false);`.
An absent value (and the empty string, which is falsy in JS) skips the
parse; a present value goes through `JSON.parse`, which raises on
unparsable input — there is no surrounding try/catch, so the error
propagates and `setLoading(false)` is never reached. -/
def hydrate (σ : Storage) (st : AuthState) : Except JsError AuthState :=
  match σ "user" with
  | none => Except.ok { st with loading := false }
  | some s =>
    if s = [] then Except.ok { st with loading := false }
    else
      match parseUser s with
      | none => Except.error JsError.parseError
      | some u => Except.ok { st with user := some u, loading := false }

/-- The provider state combined with the storage medium it persists to. -/
structure AppState where
  auth : AuthState
  storage : Storage

/-- `login(userData)`: `setUser(userData);
localStorage.setItem('user', JSON.stringify(userData));`. -/
def login (userData : User) (s : AppState) : AppState :=
  { auth := { s.auth with user := some userData },
    storage := setItem "user" (stringifyUser userData) s.storage }

/-- `logout()`: `setUser(null); localStorage.removeItem('user');`. -/
def logout (s : AppState) : AppState :=
  { auth := { s.auth with user := none },
    storage := removeItem "user" s.storage }

/-- The user-triggered operations available after startup.  The hydration
effect has an empty dependency array, so it never re-runs; only `login`
and `logout` mutate the session afterwards. -/
inductive UserEvent
  | loginEv (u : User)
  | logoutEv
deriving Repr

/-- Apply one user-triggered operation. -/
def applyEvent (s : AppState) (e : UserEvent) : AppState :=
  match e with
  | UserEvent.loginEv u => login u s
  | UserEvent.logoutEv => logout s

/-- Run a sequence of user-triggered operations. -/
def runEvents (s : AppState) (es : List UserEvent) : AppState :=
  es.foldl applyEvent s

/-- Application startup: mount with `initialAuthState`, run the hydration
effect against the current storage.  The effect only reads storage, so the
medium is returned unchanged. -/
def startApp (σ : Storage) : Except JsError AppState :=
  match hydrate σ initialAuthState with
  | Except.ok st => Except.ok { auth := st, storage := σ }
  | Except.error e => Except.error e

/-- What `ProtectedRoute` returns from its render function: the literal
loading `div`, the wrapped `children`, or `null`. -/
inductive GateRender
  | loadingIndicator
  | childrenContent
  | nullContent
deriving DecidableEq, Repr

/-- Render result of `ProtectedRoute`: `if (loading) return <div>Loading...
</div>; return user ? children : null;`. -/
def protectedRouteRender (user : Option User) (loading : Bool) : GateRender :=
  if loading then GateRender.loadingIndicator
  else
    match user with
    | some _ => GateRender.childrenContent
    | none => GateRender.nullContent

/-- Navigation side effect scheduled by `ProtectedRoute`'s `useEffect`:
do nothing while `loading`; `navigate('/login')` when there is no user;
nothing otherwise. -/
def protectedRouteEffect (user : Option User) (loading : Bool) : Option String :=
  if loading then none
  else
    match user with
    | some _ => none
    | none => some "/login"

/-- The spec's Access Gate decision vocabulary. -/
inductive Decision
  | ShowPlaceholder
  | RedirectTo (path : String)
  | RenderProtected
deriving DecidableEq, Repr

/-- The Access Gate decision function exactly as the spec states it:
`loading` gives `ShowPlaceholder`, an absent user gives
`RedirectTo '/login'`, otherwise `RenderProtected`. -/
def accessGateSpec (user : Option User) (loading : Bool) : Decision :=
  if loading then Decision.ShowPlaceholder
  else
    match user with
    | none => Decision.RedirectTo "/login"
    | some _ => Decision.RenderProtected

/-- Abstraction of `ProtectedRoute`'s combined behaviour (render result
plus scheduled navigation) into the spec's decision vocabulary: a
scheduled navigation is a redirect decision, the loading `div` is the
placeholder, and rendering the children is the protected render. -/
def protectedRouteDecision (user : Option User) (loading : Bool) : Decision :=
  match protectedRouteEffect user loading with
  | some p => Decision.RedirectTo p
  | none =>
    match protectedRouteRender user loading with
    | GateRender.loadingIndicator => Decision.ShowPlaceholder
    | _ => Decision.RenderProtected

/-- The pages wired into the route table in `App.js`. -/
inductive PageId
  | home
  | login
  | dashboard
  | notFound
deriving DecidableEq, Repr

/-- A pattern matches a path when it is the wildcard `*` or equals the
path, per the route semantics `App.js` documents (first match wins, the
wildcard matches anything). -/
def patMatches (pat path : String) : Prop := pat = "*" ∨ pat = path

instance (pat path : String) : Decidable (patMatches pat path) := by
  unfold patMatches
  infer_instance

/-- The ordered route table declared in `App.js`: `/`, `/login`,
`/dashboard` (wrapped in `ProtectedRoute`), then the catch-all `*`
registered last. -/
def appRoutes : List (String × PageId) :=
  [ ("/", PageId.home), ("/login", PageId.login),
    ("/dashboard", PageId.dashboard), ("*", PageId.notFound) ]

/-- First-match route lookup over an ordered route table. -/
def firstMatch (path : String) : List (String × PageId) → Option PageId
  | [] => none
  | (pat, pg) :: rest =>
    if patMatches pat path then some pg else firstMatch path rest

/-- What the `Routes` element of `App.js` renders for a path: a public
page directly, or — for `/dashboard` — whatever `ProtectedRoute` renders
around the dashboard. -/
inductive AppRender
  | page (p : PageId)
  | gateLoading
  | protectedPage (p : PageId)
  | gateNull
  | nothingMatched
deriving DecidableEq, Repr

/-- Render of the route table for a path and the current session
snapshot. -/
def renderApp (path : String) (user : Option User) (loading : Bool) : AppRender :=
  match firstMatch path appRoutes with
  | none => AppRender.nothingMatched
  | some PageId.dashboard =>
    match protectedRouteRender user loading with
    | GateRender.loadingIndicator => AppRender.gateLoading
    | GateRender.childrenContent => AppRender.protectedPage PageId.dashboard
    | GateRender.nullContent => AppRender.gateNull
  | some p => AppRender.page p

/-- Navigation side effect scheduled by rendering the route table: only
the `ProtectedRoute` wrapper around `/dashboard` schedules one. -/
def renderAppEffect (path : String) (user : Option User) (loading : Bool) : Option String :=
  match firstMatch path appRoutes with
  | some PageId.dashboard => protectedRouteEffect user loading
  | _ => none

/-- The value `AuthProvider` puts into the context: the session snapshot
(the `login`/`logout` capabilities are the global operations above). -/
structure AuthValue where
  user : Option User
  loading : Bool
deriving DecidableEq, Repr

/-- `const AuthContext = createContext(null); const useAuth = () =>
useContext(AuthContext);` — outside the provider the context carries its
default `null`, and `useAuth` returns it unchanged. -/
def useAuth (ctx : Option AuthValue) : Option AuthValue := ctx

/-- JS destructuring `const { ... } = v`: reading properties of `null`
raises a `TypeError`; otherwise it yields the record. -/
def destructureAuth (v : Option AuthValue) : Except JsError AuthValue :=
  match v with
  | none => Except.error JsError.typeError
  | some a => Except.ok a

/-- `Navigation` render: `const { user } = useAuth();` then shows the
dashboard link exactly when a user is present. -/
def navigationRender (ctx : Option AuthValue) : Except JsError Bool :=
  (destructureAuth (useAuth ctx)).map (fun a => a.user.isSome)

/-- `HomePage` render: `const { user } = useAuth();` then branches on the
user being present. -/
def homePageRender (ctx : Option AuthValue) : Except JsError Bool :=
  (destructureAuth (useAuth ctx)).map (fun a => a.user.isSome)

/-- `DashboardPage` render: `const { user, logout } = useAuth();` then
shows the current user's name when present. -/
def dashboardPageRender (ctx : Option AuthValue) : Except JsError (Option (List Char)) :=
  (destructureAuth (useAuth ctx)).map (fun a => a.user.map User.name)

/-- `LoginPage` render: `const { login } = useAuth();` (the form itself
reads no session data). -/
def loginPageRender (ctx : Option AuthValue) : Except JsError Unit :=
  (destructureAuth (useAuth ctx)).map (fun _ => ())

/-- `ProtectedRoute` as a component: `const { user, loading } =
useAuth();` then the gate render above. -/
def protectedRouteComponent (ctx : Option AuthValue) : Except JsError GateRender :=
  (destructureAuth (useAuth ctx)).map (fun a => protectedRouteRender a.user a.loading)

/-- A concrete user record, as `LoginPage` builds one. -/
def demoUser : User := { id := 1, name := [ 'a' ] }

/-- A stored value that is not valid JSON (`JSON.parse("corrupt")`
raises a `SyntaxError`). -/
def corruptChars : List Char := [ 'c', 'o', 'r', 'r', 'u', 'p', 't' ]

/-- A storage medium whose session entry holds the corrupt value. -/
def corruptStorage : Storage :=
  fun k => if k == "user" then some corruptChars else none

/-- Digit characters decode to the digit they encode. -/
lemma digitChar_toNat {n : Nat} (h : n < 10) : (digitChar n).toNat = 48 + n := by
  interval_cases n <;> decide

/-- Digit characters are digits. -/
lemma digitChar_isDigit {n : Nat} (h : n < 10) : (digitChar n).isDigit = true := by
  interval_cases n <;> decide

/-- A decimal representation is never empty. -/
lemma natChars_ne_nil (n : Nat) : natChars n ≠ [] := by
  unfold natChars
  split <;> simp

/-- Every character of a decimal representation is a digit. -/
lemma natChars_digits (n : Nat) : ∀ c ∈ natChars n, c.isDigit = true := by
  induction n using Nat.strong_induction_on with
  | _ n ih =>
    intro c hc
    unfold natChars at hc
    split at hc
    · rename_i h
      simp only [List.mem_singleton] at hc
      subst hc
      exact digitChar_isDigit h
    · rename_i h
      rw [List.mem_append] at hc
      rcases hc with hc | hc
      · exact ih (n / 10) (Nat.div_lt_self (by omega) (by omega)) c hc
      · simp only [List.mem_singleton] at hc
        subst hc
        exact digitChar_isDigit (Nat.mod_lt n (by omega))

/-- Folding the digit accumulator over a decimal representation recovers
the number, shifted under the accumulator. -/
lemma digitsVal_go (n : Nat) : ∀ a : Nat,
    List.foldl (fun a c => a * 10 + (c.toNat - 48)) a (natChars n)
      = a * 10 ^ (natChars n).length + n := by
  induction n using Nat.strong_induction_on with
  | _ n ih =>
    intro a
    unfold natChars
    split
    · rename_i h
      simp only [List.foldl_cons, List.foldl_nil, List.length_singleton]
      rw [digitChar_toNat h]
      omega
    · rename_i h
      rw [List.foldl_append]
      rw [ih (n / 10) (Nat.div_lt_self (by omega) (by omega)) a]
      simp only [List.foldl_cons, List.foldl_nil, List.length_append,
        List.length_singleton]
      rw [digitChar_toNat (Nat.mod_lt n (by omega))]
      rw [pow_succ, ← Nat.mul_assoc]
      generalize a * 10 ^ (natChars (n / 10)).length = q
      omega

/-- The decimal reader inverts the decimal writer. -/
lemma digitsVal_natChars (n : Nat) : digitsVal (natChars n) = n := by
  unfold digitsVal
  rw [digitsVal_go n 0]
  simp

/-- The digit scanner consumes exactly a leading block of digits when the
remainder does not begin with one. -/
lemma takeDigits_append (ds rest : List Char)
    (hds : ∀ c ∈ ds, c.isDigit = true)
    (hrest : ∀ c, rest.head? = some c → c.isDigit = false) :
    takeDigits (ds ++ rest) = (ds, rest) := by
  induction ds with
  | nil =>
    simp only [List.nil_append]
    cases rest with
    | nil => rfl
    | cons r rs =>
      have hr : r.isDigit = false := hrest r rfl
      unfold takeDigits
      rw [if_neg (by simp [hr])]
  | cons d ds ih =>
    have hd : d.isDigit = true := hds d (List.mem_cons_self d ds)
    have ih' := ih (fun c hc => hds c (List.mem_cons_of_mem d hc))
    simp only [List.cons_append]
    unfold takeDigits
    rw [if_pos hd, ih']

/-- Consuming a literal that the input starts with succeeds and leaves the
remainder. -/
lemma dropLit_append (p s : List Char) : dropLit p (p ++ s) = some s := by
  induction p with
  | nil => rfl
  | cons c cs ih => simp [dropLit, ih]

/-- The string-body reader inverts the escaper: an escaped body followed
by the closing quote decodes to the original contents. -/
lemma unescape_escape (s rest : List Char) :
    unescapeChars (escapeChars s ++ (qchar :: rest)) = some (s, rest) := by
  induction s with
  | nil =>
    simp only [escapeChars, List.nil_append]
    unfold unescapeChars
    rw [if_pos rfl]
  | cons c cs ih =>
    by_cases hc : c = qchar ∨ c = bslash
    · simp only [escapeChars, if_pos hc, List.cons_append]
      unfold unescapeChars
      rw [if_neg (by decide), if_pos rfl]
      simp only [if_pos hc, ih]
    · simp only [escapeChars, if_neg hc, List.cons_append]
      push_neg at hc
      unfold unescapeChars
      rw [if_neg hc.1, if_neg hc.2]
      simp only [ih]

/-- The restricted JSON reader inverts the writer on every user record. -/
lemma parse_stringify (u : User) : parseUser (stringifyUser u) = some u := by
  have h1 : takeDigits (natChars u.id ++ (nameKeyLit ++ (escapeChars u.name ++ (qchar :: [ rcurly ]))))
      = (natChars u.id, nameKeyLit ++ (escapeChars u.name ++ (qchar :: [ rcurly ]))) := by
    apply takeDigits_append
    · exact natChars_digits u.id
    · intro c hc
      have : c = ',' := by
        simpa [nameKeyLit] using hc.symm
      subst this
      decide
  unfold stringifyUser parseUser
  rw [dropLit_append]
  simp only [h1]
  rw [if_neg (natChars_ne_nil u.id)]
  rw [dropLit_append]
  simp only [unescape_escape]
  simp [digitsVal_natChars]

/-- A serialized user record is never the empty string. -/
lemma stringifyUser_ne_nil (u : User) : stringifyUser u ≠ [] := by
  simp [stringifyUser, idKeyLit]

/-- `login` and `logout` never touch the `loading` flag. -/
lemma applyEvent_loading (s : AppState) (e : UserEvent) :
    (applyEvent s e).auth.loading = s.auth.loading := by
  cases e <;> rfl

/-- No sequence of user-triggered operations changes the `loading` flag. -/
lemma runEvents_loading (s : AppState) (es : List UserEvent) :
    (runEvents s es).auth.loading = s.auth.loading := by
  induction es generalizing s with
  | nil => rfl
  | cons e es ih =>
    unfold runEvents at *
    simp only [List.foldl_cons]
    rw [ih (applyEvent s e), applyEvent_loading]

/-- Whenever the hydration effect completes without raising, it has set
`loading` to `false`. -/
lemma hydrate_ok_loading (σ : Storage) (st st' : AuthState)
    (h : hydrate σ st = Except.ok st') : st'.loading = false := by
  unfold hydrate at h
  split at h
  · cases h
    rfl
  · split at h
    · cases h
      rfl
    · split at h
      · exact Except.noConfusion h
      · cases h
        rfl

/-- A pattern that is not the wildcard and differs from the path does not
match it. -/
lemma not_patMatches {pat path : String} (hw : pat ≠ "*") (hp : path ≠ pat) :
    ¬ patMatches pat path := by
  intro hx
  rcases hx with hx | hx
  · exact hw hx
  · exact hp hx.symm

/-- Claim C1, counterexample: with the corrupt stored value `"corrupt"`
under the session key, hydration raises the parse error instead of
resolving to a logged-out state — `JSON.parse` is applied without any
error handling. -/
theorem c1_counterexample :
    hydrate corruptStorage initialAuthState = Except.error JsError.parseError := rfl

/-- Claim C1 (amended): a present stored value that fails to parse makes
hydration raise the parse error (the fail-open policy is absent from the
code); only an absent stored value hydrates to the logged-out state
without error, in which the Access Gate then redirects as
unauthenticated. -/
theorem c1_corrupt_store_raises (σ : Storage) (st : AuthState) (s : List Char)
    (h1 : parseUser s = none) (h2 : s ≠ []) :
    hydrate (setItem "user" s σ) st = Except.error JsError.parseError ∧
    (σ "user" = none → hydrate σ st = Except.ok { st with loading := false }) ∧
    protectedRouteDecision none false = Decision.RedirectTo "/login" := by
  refine ⟨?_, ?_, rfl⟩
  · simp [hydrate, setItem, h1, h2]
  · intro hnone
    simp [hydrate, hnone]

/-- Claim C1, witness: the amended statement applied to the concrete
corrupt value `"corrupt"` over an otherwise empty store. -/
theorem c1_witness :
    parseUser corruptChars = none ∧ corruptChars ≠ [] ∧
    (hydrate (setItem "user" corruptChars emptyStorage) initialAuthState =
        Except.error JsError.parseError ∧
      (emptyStorage "user" = none →
        hydrate emptyStorage initialAuthState =
          Except.ok { initialAuthState with loading := false }) ∧
      protectedRouteDecision none false = Decision.RedirectTo "/login") :=
  ⟨rfl, by decide,
    c1_corrupt_store_raises emptyStorage initialAuthState corruptChars rfl (by decide)⟩

/-- Claim C2: the combined behaviour of `ProtectedRoute` (render result
plus scheduled navigation) is exactly the Access Gate decision function of
the spec: placeholder while loading, redirect to `/login` for an absent
user, protected render otherwise. -/
theorem c2_access_gate_refines_spec (user : Option User) (loading : Bool) :
    protectedRouteDecision user loading = accessGateSpec user loading := by
  cases loading <;> cases user <;> rfl

/-- Claim C3: invoked outside the provider, `useAuth` yields the `null`
context default rather than an auth value, and every consumer in the
program destructures it, raising a `TypeError` during render — a loud
development-time failure at each use site, never a silently defaulted
auth value. -/
theorem c3_consumer_outside_provider_errors :
    useAuth none = none ∧
    navigationRender none = Except.error JsError.typeError ∧
    homePageRender none = Except.error JsError.typeError ∧
    dashboardPageRender none = Except.error JsError.typeError ∧
    loginPageRender none = Except.error JsError.typeError ∧
    protectedRouteComponent none = Except.error JsError.typeError :=
  ⟨rfl, rfl, rfl, rfl, rfl, rfl⟩

/-- Claim C4: while hydration is unresolved (`loading = true`) the gate
decision is the placeholder, and for every requested path and every
session user the route table renders no protected content and schedules
no navigation. -/
theorem c4_placeholder_while_hydrating (path : String) (user : Option User) :
    protectedRouteDecision user true = Decision.ShowPlaceholder ∧
    (∀ pg, renderApp path user true ≠ AppRender.protectedPage pg) ∧
    renderAppEffect path user true = none := by
  refine ⟨rfl, ?_, ?_⟩
  · intro pg
    unfold renderApp
    cases hm : firstMatch path appRoutes with
    | none => simp
    | some p => cases p <;> simp [protectedRouteRender]
  · unfold renderAppEffect
    cases hm : firstMatch path appRoutes with
    | none => simp
    | some p => cases p <;> simp [protectedRouteEffect]

/-- Claim C5: `loading` starts `true`, every successful hydration leaves
it `false`, and no sequence of `login`/`logout` operations (the only
mutations after the one-shot hydration effect) ever makes it `true`
again. -/
theorem c5_loading_only_during_hydration (σ σ2 : Storage) (st st' : AuthState)
    (es : List UserEvent) (h : hydrate σ st = Except.ok st') :
    initialAuthState.loading = true ∧ st'.loading = false ∧
    (runEvents { auth := st', storage := σ2 } es).auth.loading = false := by
  refine ⟨rfl, hydrate_ok_loading σ st st' h, ?_⟩
  rw [runEvents_loading]
  exact hydrate_ok_loading σ st st' h

/-- Claim C5, witness: hydration over an empty store followed by a login
and a logout. -/
theorem c5_witness :
    initialAuthState.loading = true ∧ (AuthState.mk none false).loading = false ∧
    (runEvents { auth := AuthState.mk none false, storage := emptyStorage }
      [ UserEvent.loginEv demoUser, UserEvent.logoutEv ]).auth.loading = false :=
  c5_loading_only_during_hydration emptyStorage emptyStorage initialAuthState
    (AuthState.mk none false) [ UserEvent.loginEv demoUser, UserEvent.logoutEv ] rfl

/-- Claim C6: after `login(u)` followed by `logout()`, the in-memory user
is absent and the session key is cleared from storage, from any starting
state. -/
theorem c6_login_then_logout (u : User) (s : AppState) :
    (logout (login u s)).auth.user = none ∧
    (logout (login u s)).storage "user" = none := by
  refine ⟨rfl, ?_⟩
  simp [logout, removeItem]

/-- Claim C7: `login(u1)` followed by `login(u2)` leaves the in-memory
user equal to `u2` and the stored value equal to the serialization of
`u2` — the second write overwrites the first. -/
theorem c7_login_last_write_wins (u1 u2 : User) (s : AppState) :
    (login u2 (login u1 s)).auth.user = some u2 ∧
    (login u2 (login u1 s)).storage "user" = some (stringifyUser u2) := by
  refine ⟨rfl, ?_⟩
  simp [login, setItem]

/-- Claim C8: a path matching none of the declared patterns renders the
NotFound page whatever the session snapshot is, and the wildcard entry is
the last entry of the route table, with no earlier wildcard to shadow the
declared routes. -/
theorem c8_unmatched_renders_notfound (path : String) (user : Option User)
    (loading : Bool)
    (h1 : path ≠ "/") (h2 : path ≠ "/login") (h3 : path ≠ "/dashboard") :
    renderApp path user loading = AppRender.page PageId.notFound ∧
    appRoutes.getLast? = some ("*", PageId.notFound) ∧
    (∀ pr ∈ appRoutes.dropLast, pr.1 ≠ "*") := by
  have hm : firstMatch path appRoutes = some PageId.notFound := by
    unfold appRoutes
    simp only [firstMatch]
    rw [if_neg (not_patMatches (by decide) h1)]
    rw [if_neg (not_patMatches (by decide) h2)]
    rw [if_neg (not_patMatches (by decide) h3)]
    rw [if_pos (show patMatches "*" path from Or.inl rfl)]
  exact ⟨by simp [renderApp, hm], rfl, by decide⟩

/-- Claim C8, witness: the unmatched path `/this-does-not-exist` with no
user and hydration resolved. -/
theorem c8_witness :
    ("/this-does-not-exist" : String) ≠ "/" ∧
    ("/this-does-not-exist" : String) ≠ "/login" ∧
    ("/this-does-not-exist" : String) ≠ "/dashboard" ∧
    (renderApp "/this-does-not-exist" none false = AppRender.page PageId.notFound ∧
     appRoutes.getLast? = some ("*", PageId.notFound) ∧
     (∀ pr ∈ appRoutes.dropLast, pr.1 ≠ "*")) :=
  ⟨by decide, by decide, by decide,
    c8_unmatched_renders_notfound "/this-does-not-exist" none false
      (by decide) (by decide) (by decide)⟩

/-- Claim C9: the serialization round-trips losslessly — parsing the
stored form of any user yields that user — and hydrating from the storage
left by `login(u)` resolves to exactly `u`. -/
theorem c9_store_roundtrip (u : User) (s : AppState) (st : AuthState) :
    parseUser (stringifyUser u) = some u ∧
    hydrate (login u s).storage st =
      Except.ok { st with user := some u, loading := false } := by
  refine ⟨parse_stringify u, ?_⟩
  simp [hydrate, login, setItem, stringifyUser_ne_nil u, parse_stringify u]

/-- Claim C10: `login` writes only the fixed session key and `logout`
removes only it — every other key of the durable store is untouched — and
startup hydration leaves the whole store unchanged. -/
theorem c10_storage_frame (σ : Storage) (st : AuthState) (u : User) (k : String)
    (hk : k ≠ "user") :
    (login u { auth := st, storage := σ }).storage k = σ k ∧
    (logout { auth := st, storage := σ }).storage k = σ k ∧
    (∀ s', startApp σ = Except.ok s' → s'.storage k = σ k) := by
  refine ⟨?_, ?_, ?_⟩
  · simp [login, setItem, hk]
  · simp [logout, removeItem, hk]
  · intro s' h
    unfold startApp at h
    split at h
    · cases h
      rfl
    · exact Except.noConfusion h

/-- Claim C10, witness: the frame property at the unrelated key `theme`
over an empty store. -/
theorem c10_witness :
    ("theme" : String) ≠ "user" ∧
    ((login demoUser { auth := initialAuthState, storage := emptyStorage }).storage
        "theme" = emptyStorage "theme" ∧
      (logout { auth := initialAuthState, storage := emptyStorage }).storage
        "theme" = emptyStorage "theme" ∧
      (∀ s', startApp emptyStorage = Except.ok s' →
        s'.storage "theme" = emptyStorage "theme")) :=
  ⟨by decide, c10_storage_frame emptyStorage initialAuthState demoUser "theme" (by decide)⟩

end ReactUseAuth
